import Mathlib

/-!
Shallow embedding of `dream_oracle.py`: the request executor
(`make_api_request`), the response interpreter (`parse_generation_response`),
the journal store (`save_dream` / `view_journal` / `clear_journal`) and the
text sanitizer (`sanitize_text`), together with theorems settling the
specification claims about them.
-/

namespace DreamOracle

/-- JSON values as produced by Python json.loads: None, bool, int, str, list, dict.
Object fields model a Python dict, so keys are unique. -/
inductive Json where
  | null : Json
  | bool (b : Bool) : Json
  | num (n : Int) : Json
  | str (s : String) : Json
  | arr (elems : List Json) : Json
  | obj (fields : List (String × Json)) : Json

mutual

/-- Python repr() of a JSON-shaped value (used by str() on containers). -/
def pyRepr : Json → String
  | Json.null => "None"
  | Json.bool b => if b then "True" else "False"
  | Json.num n => toString n
  | Json.str s => "\x27" ++ s ++ "\x27"
  | Json.arr xs => "[" ++ pyReprElems xs ++ "]"
  | Json.obj fs => "\x7b" ++ pyReprFields fs ++ "\x7d"

/-- Comma-separated repr of list elements. -/
def pyReprElems : List Json → String
  | [] => ""
  | [x] => pyRepr x
  | x :: y :: xs => pyRepr x ++ ", " ++ pyReprElems (y :: xs)

/-- Comma-separated repr of dict items. -/
def pyReprFields : List (String × Json) → String
  | [] => ""
  | [(k, v)] => "\x27" ++ k ++ "\x27: " ++ pyRepr v
  | (k, v) :: f :: fs => "\x27" ++ k ++ "\x27: " ++ pyRepr v ++ ", " ++ pyReprFields (f :: fs)

end

/-- Python str() of a JSON-shaped value: identity on strings, repr otherwise. -/
def pyStr (j : Json) : String :=
  match j with
  | Json.str s => s
  | j => pyRepr j

/-- Python truthiness of a JSON-shaped value. -/
def pyTruthy : Json → Bool
  | Json.null => false
  | Json.bool b => b
  | Json.num n => n != 0
  | Json.str s => !(s == "")
  | Json.arr xs => !xs.isEmpty
  | Json.obj fs => !fs.isEmpty

/-- First-match lookup in an object's field list (keys are unique). -/
def lookupField : List (String × Json) → String → Option Json
  | [], _ => none
  | (k, v) :: rest, key => if k == key then some v else lookupField rest key

/-- Python dict.get(key, default) on an object's field list. -/
def dictGet (fs : List (String × Json)) (k : String) (d : Json) : Json :=
  (lookupField fs k).getD d

/-- Python `value.get(key, default)`: AttributeError unless value is a dict. -/
def pyGet (j : Json) (k : String) (d : Json) : Except String Json :=
  match j with
  | Json.obj fs => Except.ok (dictGet fs k d)
  | _ => Except.error "AttributeError"

/-- Python `value[0]`: first element of a list, first character of a string
(as a one-character string), KeyError on a dict (JSON keys are strings, so
the int key 0 is never present), TypeError otherwise. -/
def pyIndex0 : Json → Except String Json
  | Json.arr (x :: _) => Except.ok x
  | Json.arr [] => Except.error "IndexError"
  | Json.str s =>
    match s.data with
    | c :: _ => Except.ok (Json.str (String.mk [c]))
    | [] => Except.error "IndexError"
  | Json.obj _ => Except.error "KeyError"
  | _ => Except.error "TypeError"

/-- Python `value == "lit"` for a string literal: true only for that string. -/
def isStrVal (j : Json) (s : String) : Bool :=
  match j with
  | Json.str t => t == s
  | _ => false

/-- Fixed message returned when generation stopped at the token limit. -/
def maxTokensMsg : String :=
  "The Oracle\x27s vision was too vast and was cut short. (MAX_TOKENS)."

/-- Message embedding a non-STOP, non-MAX_TOKENS finish reason. -/
def blockedMsg (fr : Json) : String :=
  "The Oracle\x27s vision was blocked by: " ++ pyStr fr ++ "."

/-- Fixed fallback when the text field is missing or falsy. -/
def visionUnclearMsg : String :=
  "The Oracle spoke, but the vision was unclear (could not parse text)."

/-- Fixed fallback when extraction raises inside the try block. -/
def criticalErrorMsg : String :=
  "A critical error occurred while parsing the Oracle\x27s response."

/-- The try-block of parse_generation_response: each step that can raise in
Python is an Except step here; the error value records the exception kind. -/
def interpCore (response : Json) : Except String Json :=
  match pyGet response "candidates" (Json.arr []) with
  | Except.error e => Except.error e
  | Except.ok cands =>
    match pyIndex0 cands with
    | Except.error e => Except.error e
    | Except.ok candidate =>
      match pyGet candidate "finishReason" Json.null with
      | Except.error e => Except.error e
      | Except.ok fr =>
        if pyTruthy fr && !(isStrVal fr "STOP") then
          if isStrVal fr "MAX_TOKENS" then Except.ok (Json.str maxTokensMsg)
          else Except.ok (Json.str (blockedMsg fr))
        else
          match pyGet candidate "content" (Json.obj []) with
          | Except.error e => Except.error e
          | Except.ok content =>
            match pyGet content "parts" (Json.arr []) with
            | Except.error e => Except.error e
            | Except.ok parts =>
              match pyIndex0 parts with
              | Except.error e => Except.error e
              | Except.ok part0 =>
                match pyGet part0 "text" Json.null with
                | Except.error e => Except.error e
                | Except.ok text =>
                  if pyTruthy text then Except.ok text
                  else Except.ok (Json.str visionUnclearMsg)

/-- parse_generation_response: the try block with its catch-all except
clause, which converts any exception into the critical-error fallback. -/
def parse_generation_response (response : Json) : Json :=
  match interpCore response with
  | Except.ok v => v
  | Except.error _ => Json.str criticalErrorMsg

/-- Outcome of one attempt of the request loop, as the environment presents
it: a 2xx response together with the result of json.loads on its body, a
non-2xx HTTPError (reason and error body), a connection-level URLError, or
any other unexpected exception. -/
inductive AttemptOutcome where
  | response2xx (parsed : Except String Json) : AttemptOutcome
  | httpError (reason : String) (body : String) : AttemptOutcome
  | urlError (reason : String) : AttemptOutcome
  | otherExc (reason : String) : AttemptOutcome

/-- The RuntimeError stored in last_exception: the constructor records the
message prefix used in the source ("API Error: ", "Network Error: ",
"Unexpected error: "), the field the embedded reason. -/
inductive StoredExc where
  | apiError (reason : String) : StoredExc
  | networkError (reason : String) : StoredExc
  | unexpectedError (reason : String) : StoredExc
  deriving DecidableEq

/-- How make_api_request terminates: returning a parsed body, raising the
stored exception, or raising None (only reachable with zero attempts). -/
inductive ReqOutcome where
  | ok (body : Json) : ReqOutcome
  | raised (e : StoredExc) : ReqOutcome
  | raisedNone : ReqOutcome

/-- Observable trace of one make_api_request invocation: its outcome, the
time.sleep durations in order, the number of attempts started, and the
error bodies read from HTTPError responses. -/
structure ReqTrace where
  result : ReqOutcome
  sleeps : List Nat
  attempts : Nat
  bodyReads : List String

/-- raise last_exception after the loop. -/
def finalRaise : Option StoredExc → ReqOutcome
  | none => ReqOutcome.raisedNone
  | some e => ReqOutcome.raised e

/-- The retry loop of make_api_request: `attempt` is the current 0-based
attempt index, the second argument the remaining iterations, the third the
current last_exception. A 2xx body that json.loads rejects falls into the
generic except clause, like any unexpected exception. -/
def requestLoop (att : Nat → AttemptOutcome) : Nat → Nat → Option StoredExc → ReqTrace
  | _, 0, last => ⟨finalRaise last, [], 0, []⟩
  | attempt, remaining + 1, _ =>
    match att attempt with
    | AttemptOutcome.response2xx (Except.ok body) => ⟨ReqOutcome.ok body, [], 1, []⟩
    | AttemptOutcome.httpError reason body =>
      ⟨ReqOutcome.raised (StoredExc.apiError reason), [], 1, [body]⟩
    | AttemptOutcome.response2xx (Except.error m) =>
      let rest := requestLoop att (attempt + 1) remaining (some (StoredExc.unexpectedError m))
      ⟨rest.result, 2 * (attempt + 1) :: rest.sleeps, rest.attempts + 1, rest.bodyReads⟩
    | AttemptOutcome.urlError reason =>
      let rest := requestLoop att (attempt + 1) remaining (some (StoredExc.networkError reason))
      ⟨rest.result, 2 * (attempt + 1) :: rest.sleeps, rest.attempts + 1, rest.bodyReads⟩
    | AttemptOutcome.otherExc reason =>
      let rest := requestLoop att (attempt + 1) remaining (some (StoredExc.unexpectedError reason))
      ⟨rest.result, 2 * (attempt + 1) :: rest.sleeps, rest.attempts + 1, rest.bodyReads⟩

/-- MAX_RETRIES = 3 in the source configuration. -/
def MAX_RETRIES : Nat := 3

/-- make_api_request, abstracted over the environment `att` giving the
outcome of each attempt and over the retry bound. -/
def make_api_request (att : Nat → AttemptOutcome) (maxRetries : Nat) : ReqTrace :=
  requestLoop att 0 maxRetries none

/-- Attempt outcomes the loop retries after sleeping: URLError, any
unexpected exception, and a 2xx body that fails JSON parsing. -/
def retriable : AttemptOutcome → Bool
  | AttemptOutcome.urlError _ => true
  | AttemptOutcome.otherExc _ => true
  | AttemptOutcome.response2xx (Except.error _) => true
  | _ => false

/-- Connection-level failures: no response was received. -/
def connLevel : AttemptOutcome → Bool
  | AttemptOutcome.urlError _ => true
  | AttemptOutcome.otherExc _ => true
  | _ => false

/-- The exception stored by the handler of the given attempt outcome. -/
def excOf : AttemptOutcome → StoredExc
  | AttemptOutcome.urlError r => StoredExc.networkError r
  | AttemptOutcome.otherExc r => StoredExc.unexpectedError r
  | AttemptOutcome.response2xx (Except.error m) => StoredExc.unexpectedError m
  | AttemptOutcome.response2xx (Except.ok _) => StoredExc.unexpectedError ""
  | AttemptOutcome.httpError r _ => StoredExc.apiError r

/-- The spec's transient NetworkError class: both the URLError path and the
unexpected-exception path of the source. -/
def isTransientExc : StoredExc → Bool
  | StoredExc.networkError _ => true
  | StoredExc.unexpectedError _ => true
  | StoredExc.apiError _ => false

/-- The reason carried by a stored exception. -/
def excReason : StoredExc → String
  | StoredExc.apiError r => r
  | StoredExc.networkError r => r
  | StoredExc.unexpectedError r => r

/-- The reason of a connection-level failure outcome. -/
def connReason : AttemptOutcome → String
  | AttemptOutcome.urlError r => r
  | AttemptOutcome.otherExc r => r
  | _ => ""

/-- Python str.replace of NUL with the empty string, on the char list. -/
def removeNul (l : List Char) : List Char :=
  l.filter (fun c => !(c == '\x00'))

/-- The ASCII whitespace Python str.strip removes. -/
def pyIsSpace (c : Char) : Bool :=
  c == ' ' || c == '\t' || c == '\n' || c == '\r' || c == '\x0b' || c == '\x0c'

/-- Strip leading whitespace. -/
def pyLStrip (l : List Char) : List Char := l.dropWhile pyIsSpace

/-- Strip trailing whitespace. -/
def pyRStrip (l : List Char) : List Char := (l.reverse.dropWhile pyIsSpace).reverse

/-- Python str.strip: both ends. -/
def pyStrip (l : List Char) : List Char := pyRStrip (pyLStrip l)

/-- sanitize_text: text.replace(NUL, empty).strip(). -/
def sanitize_text (s : String) : String :=
  String.mk (pyStrip (removeNul s.data))

/-- No NUL byte occurs in the string. -/
def hasNoNul (s : String) : Bool :=
  s.data.all (fun c => !(c == '\x00'))

/-- Neither end of the string is whitespace. -/
def noEdgeSpace (s : String) : Bool :=
  s.data.head?.all (fun c => !pyIsSpace c) && s.data.getLast?.all (fun c => !pyIsSpace c)

/-- The 60-character separator line of a journal entry. -/
def sep60 : String := String.mk (List.replicate 60 '=')

/-- The block appended for one journal entry. -/
def journalEntry (timestamp dream interp : String) : String :=
  "Time: " ++ timestamp ++ "\nDream: " ++ dream ++ "\n\nInterpretation:\n" ++
    interp ++ "\n" ++ sep60 ++ "\n\n"

/-- save_dream over the journal-file state (none means the file does not
exist): sanitizes both strings and appends the formatted entry, creating
the file if absent. -/
def save_dream (timestamp dream interp : String) (journal : Option String) : Option String :=
  some (journal.getD "" ++ journalEntry timestamp (sanitize_text dream) (sanitize_text interp))

/-- What view_journal reports: the empty-journal message or the content. -/
inductive ViewOutcome where
  | emptyJournal : ViewOutcome
  | shown (content : String) : ViewOutcome
  deriving DecidableEq

/-- view_journal over the journal-file state. -/
def view_journal : Option String → ViewOutcome
  | none => ViewOutcome.emptyJournal
  | some s => ViewOutcome.shown s

/-- What clear_journal reports. -/
inductive ClearOutcome where
  | noJournal : ClearOutcome
  | cleared : ClearOutcome
  | untouched : ClearOutcome
  deriving DecidableEq

/-- Python str.lower on an ASCII letter. -/
def pyLowerChar (c : Char) : Char :=
  if 'A' ≤ c ∧ c ≤ 'Z' then Char.ofNat (c.toNat + 32) else c

/-- Python str.lower (ASCII fragment, which covers the y/n prompts). -/
def pyLower (s : String) : String := String.mk (s.data.map pyLowerChar)

/-- clear_journal over the journal-file state: asks for confirmation only
when the file exists, lowercases the answer and deletes on exactly "y". -/
def clear_journal (confirm : String) : Option String → Option String × ClearOutcome
  | none => (none, ClearOutcome.noJournal)
  | some s =>
    if pyLower confirm == "y" then (none, ClearOutcome.cleared)
    else (some s, ClearOutcome.untouched)

/-- The backoff sleeps produced by k consecutive retried failures starting
at 0-based attempt index a: 2*(a+1), 2*(a+2), ... -/
def backoffs (a k : Nat) : List Nat :=
  (List.range k).map (fun i => 2 * (a + i + 1))

/-- The last_exception after k consecutive retried failures starting at
attempt index a, given the incoming last_exception. -/
def lastExcAfter (att : Nat → AttemptOutcome) (a k : Nat) (last : Option StoredExc) :
    Option StoredExc :=
  match k with
  | 0 => last
  | j + 1 => some (excOf (att (a + j)))

theorem backoffs_succ (a k : Nat) :
    backoffs a (k + 1) = 2 * (a + 1) :: backoffs (a + 1) k := by
  unfold backoffs
  rw [List.range_succ_eq_map, List.map_cons, List.map_map]
  refine congrArg₂ List.cons (by simp) ?_
  refine List.map_congr_left ?_
  intro i _
  simp only [Function.comp_apply]
  omega

theorem backoffs_zero_base (k : Nat) :
    backoffs 0 k = (List.range k).map (fun i => 2 * (i + 1)) := by
  unfold backoffs
  refine List.map_congr_left ?_
  intro i _
  omega

theorem lastExcAfter_shift (att : Nat → AttemptOutcome) (a k : Nat) (last : Option StoredExc) :
    lastExcAfter att (a + 1) k (some (excOf (att a))) = lastExcAfter att a (k + 1) last := by
  cases k with
  | zero => rfl
  | succ j =>
    simp only [lastExcAfter]
    have e : a + 1 + j = a + (j + 1) := by omega
    rw [e]

theorem requestLoop_attempts_pos (att : Nat → AttemptOutcome) (a r : Nat)
    (last : Option StoredExc) (hr : 0 < r) :
    1 ≤ (requestLoop att a r last).attempts := by
  cases r with
  | zero => omega
  | succ m =>
    cases hA : att a with
    | response2xx p => cases p <;> simp [requestLoop, hA]
    | httpError rs b => simp [requestLoop, hA]
    | urlError rs => simp [requestLoop, hA]
    | otherExc rs => simp [requestLoop, hA]

/-- Decomposition of the retry loop across a prefix of k retried failures:
the loop sleeps the k backoffs, starts k attempts, and continues from
attempt a + k with the stored exception of the last prefix failure. -/
theorem requestLoop_retried_run (att : Nat → AttemptOutcome) :
    ∀ (k a r : Nat) (last : Option StoredExc), k ≤ r →
      (∀ i, i < k → retriable (att (a + i)) = true) →
      requestLoop att a r last =
        { result := (requestLoop att (a + k) (r - k) (lastExcAfter att a k last)).result
          sleeps :=
            backoffs a k ++ (requestLoop att (a + k) (r - k) (lastExcAfter att a k last)).sleeps
          attempts := k + (requestLoop att (a + k) (r - k) (lastExcAfter att a k last)).attempts
          bodyReads := (requestLoop att (a + k) (r - k) (lastExcAfter att a k last)).bodyReads } := by
  intro k
  induction k with
  | zero =>
    intro a r last _ _
    simp [backoffs, lastExcAfter]
  | succ k ih =>
    intro a r last hle h
    cases r with
    | zero => omega
    | succ r' =>
      have h0 : retriable (att a) = true := by
        have := h 0 (Nat.succ_pos k)
        simpa using this
      have hshift : ∀ i, i < k → retriable (att (a + 1 + i)) = true := by
        intro i hi
        have hh := h (i + 1) (by omega)
        have e : a + (i + 1) = a + 1 + i := by omega
        rwa [e] at hh
      have e1 : a + 1 + k = a + (k + 1) := by omega
      have e2 : r' - k = r' + 1 - (k + 1) := by omega
      cases hA : att a with
      | response2xx p =>
        cases p with
        | ok body => rw [hA] at h0; simp [retriable] at h0
        | error m =>
          have hex : StoredExc.unexpectedError m = excOf (att a) := by rw [hA]; rfl
          simp only [requestLoop, hA]
          rw [ih (a + 1) r' (some (StoredExc.unexpectedError m)) (by omega) hshift]
          rw [hex, lastExcAfter_shift att a k last, e1, e2, backoffs_succ]
          simp only [List.cons_append, ReqTrace.mk.injEq, true_and, and_true]
          omega
      | httpError rs b => rw [hA] at h0; simp [retriable] at h0
      | urlError rs =>
        have hex : StoredExc.networkError rs = excOf (att a) := by rw [hA]; rfl
        simp only [requestLoop, hA]
        rw [ih (a + 1) r' (some (StoredExc.networkError rs)) (by omega) hshift]
        rw [hex, lastExcAfter_shift att a k last, e1, e2, backoffs_succ]
        simp only [List.cons_append, ReqTrace.mk.injEq, true_and, and_true]
        omega
      | otherExc rs =>
        have hex : StoredExc.unexpectedError rs = excOf (att a) := by rw [hA]; rfl
        simp only [requestLoop, hA]
        rw [ih (a + 1) r' (some (StoredExc.unexpectedError rs)) (by omega) hshift]
        rw [hex, lastExcAfter_shift att a k last, e1, e2, backoffs_succ]
        simp only [List.cons_append, ReqTrace.mk.injEq, true_and, and_true]
        omega

/-- When every one of the n attempts fails with a retried outcome, the full
trace: the stored exception of the last attempt is raised, every backoff is
slept, and all n attempts are started. -/
theorem make_api_request_all_retriable (att : Nat → AttemptOutcome) (n : Nat)
    (hn : 0 < n) (h : ∀ i, i < n → retriable (att i) = true) :
    make_api_request att n =
      ⟨ReqOutcome.raised (excOf (att (n - 1))), backoffs 0 n, n, []⟩ := by
  unfold make_api_request
  rw [requestLoop_retried_run att n 0 n none (Nat.le_refl n)
    (by intro i hi; simpa using h i hi)]
  cases n with
  | zero => omega
  | succ m =>
    simp [requestLoop, lastExcAfter, finalRaise]

theorem connLevel_retriable (o : AttemptOutcome) (h : connLevel o = true) :
    retriable o = true := by
  cases o <;> simp_all [connLevel, retriable]

theorem connLevel_transient (o : AttemptOutcome) (h : connLevel o = true) :
    isTransientExc (excOf o) = true ∧ excReason (excOf o) = connReason o := by
  cases o <;> simp_all [connLevel, excOf, isTransientExc, excReason, connReason]

/-- Claim C1: when every attempt fails at the connection level, the
executor performs up to maxRetries attempts (exactly maxRetries here, and
the source default is 3), sleeping the strictly increasing backoffs
2, 4, 6, ... seconds, and then raises a transient (NetworkError-class)
exception carrying the reason of the last failure. -/
theorem retry_exhaustion_network_error (att : Nat → AttemptOutcome) (n : Nat)
    (hn : 0 < n) (h : ∀ i, i < n → connLevel (att i) = true) :
    MAX_RETRIES = 3 ∧
    (make_api_request att n).attempts = n ∧
    (make_api_request att n).sleeps = (List.range n).map (fun i => 2 * (i + 1)) ∧
    List.Pairwise (fun x y => x < y) (make_api_request att n).sleeps ∧
    ∃ e, (make_api_request att n).result = ReqOutcome.raised e ∧
      isTransientExc e = true ∧ excReason e = connReason (att (n - 1)) := by
  have hall := make_api_request_all_retriable att n hn
    (fun i hi => connLevel_retriable (att i) (h i hi))
  have hsleeps : (make_api_request att n).sleeps = (List.range n).map (fun i => 2 * (i + 1)) := by
    rw [hall, backoffs_zero_base]
  refine ⟨rfl, by rw [hall], hsleeps, ?_, ?_⟩
  · rw [hsleeps]
    rw [List.pairwise_map]
    exact (List.pairwise_lt_range n).imp (fun hij => by omega)
  · refine ⟨excOf (att (n - 1)), by rw [hall], ?_, ?_⟩
    · exact (connLevel_transient (att (n - 1)) (h (n - 1) (by omega))).1
    · exact (connLevel_transient (att (n - 1)) (h (n - 1) (by omega))).2

/-- Environment for the C1 witness: every attempt times out. -/
def attAllTimeout : Nat → AttemptOutcome := fun _ => AttemptOutcome.urlError "timed out"

theorem retry_exhaustion_network_error_witness :
    MAX_RETRIES = 3 ∧
    (make_api_request attAllTimeout 3).attempts = 3 ∧
    (make_api_request attAllTimeout 3).sleeps = (List.range 3).map (fun i => 2 * (i + 1)) ∧
    List.Pairwise (fun x y => x < y) (make_api_request attAllTimeout 3).sleeps ∧
    ∃ e, (make_api_request attAllTimeout 3).result = ReqOutcome.raised e ∧
      isTransientExc e = true ∧ excReason e = connReason (attAllTimeout (3 - 1)) :=
  retry_exhaustion_network_error attAllTimeout 3 (by omega) (fun i _ => rfl)

/-- Claim C2: a non-2xx response on the first attempt stops the executor
at once: the error body is read, no sleep happens, exactly one attempt is
performed, and the ApiError carrying the server reason is raised. -/
theorem http_error_single_attempt (att : Nat → AttemptOutcome) (n : Nat) (r b : String)
    (hn : 0 < n) (h0 : att 0 = AttemptOutcome.httpError r b) :
    make_api_request att n =
      ⟨ReqOutcome.raised (StoredExc.apiError r), [], 1, [b]⟩ := by
  cases n with
  | zero => omega
  | succ m => simp [make_api_request, requestLoop, h0]

/-- Environment for the C2 witness: the server answers 403 on every attempt. -/
def attForbidden : Nat → AttemptOutcome :=
  fun _ => AttemptOutcome.httpError "Forbidden" "API key not valid"

theorem http_error_single_attempt_witness :
    make_api_request attForbidden 3 =
      ⟨ReqOutcome.raised (StoredExc.apiError "Forbidden"), [], 1, ["API key not valid"]⟩ :=
  http_error_single_attempt attForbidden 3 "Forbidden" "API key not valid" (by omega) rfl

/-- Claim C5: a 2xx response whose body fails JSON parsing is retried like
a transient failure when it occurs before the final attempt (a further
attempt is started, after the backoff sleep of that attempt), and on the
final attempt the loop ends and the stored parse-failure exception is
raised to the caller. -/
theorem json_parse_failure_handling (att : Nat → AttemptOutcome) (n k : Nat) (m : String)
    (hk : k < n)
    (hpre : ∀ i, i < k → retriable (att i) = true)
    (hatt : att k = AttemptOutcome.response2xx (Except.error m)) :
    (k + 1 < n →
      k + 2 ≤ (make_api_request att n).attempts ∧
      (make_api_request att n).sleeps[k]? = some (2 * (k + 1))) ∧
    (k + 1 = n →
      (make_api_request att n).result = ReqOutcome.raised (StoredExc.unexpectedError m)) := by
  constructor
  · intro hlt
    have hpre' : ∀ i, i < k + 1 → retriable (att (0 + i)) = true := by
      intro i hi
      rw [Nat.zero_add]
      rcases Nat.lt_or_ge i k with hik | hik
      · exact hpre i hik
      · have : i = k := by omega
        rw [this, hatt]
        rfl
    have hdec := requestLoop_retried_run att (k + 1) 0 n none (by omega) hpre'
    unfold make_api_request
    rw [hdec]
    constructor
    · have hpos : 1 ≤ (requestLoop att (0 + (k + 1)) (n - (k + 1))
          (lastExcAfter att 0 (k + 1) none)).attempts :=
        requestLoop_attempts_pos att (0 + (k + 1)) (n - (k + 1)) _ (by omega)
      simp only [ReqTrace.attempts]
      omega
    · simp only [ReqTrace.sleeps]
      have hlen : k < (backoffs 0 (k + 1)).length := by
        unfold backoffs
        simp
      rw [List.getElem?_append, if_pos hlen]
      unfold backoffs
      rw [List.getElem?_map]
      simp [List.getElem?_range]
  · intro heq
    have hn : 0 < n := by omega
    have hall : ∀ i, i < n → retriable (att i) = true := by
      intro i hi
      rcases Nat.lt_or_ge i k with hik | hik
      · exact hpre i hik
      · have : i = k := by omega
        rw [this, hatt]
        rfl
    have := make_api_request_all_retriable att n hn hall
    rw [this]
    have hk1 : n - 1 = k := by omega
    rw [hk1, hatt]
    rfl

/-- Environment for the C5 witness: the first body is malformed JSON, the
second parses fine. -/
def attBadJson : Nat → AttemptOutcome
  | 0 => AttemptOutcome.response2xx (Except.error "Expecting value: line 1 column 1 (char 0)")
  | _ + 1 => AttemptOutcome.response2xx (Except.ok Json.null)

theorem json_parse_failure_handling_witness :
    (2 ≤ (make_api_request attBadJson 2).attempts ∧
      (make_api_request attBadJson 2).sleeps[0]? = some (2 * (0 + 1))) ∧
    (make_api_request attBadJson 1).result =
      ReqOutcome.raised (StoredExc.unexpectedError "Expecting value: line 1 column 1 (char 0)") := by
  constructor
  · exact (json_parse_failure_handling attBadJson 2 0 "Expecting value: line 1 column 1 (char 0)"
      (by omega) (fun i hi => absurd hi (Nat.not_lt_zero i)) rfl).1 (by omega)
  · exact (json_parse_failure_handling attBadJson 1 0 "Expecting value: line 1 column 1 (char 0)"
      (by omega) (fun i hi => absurd hi (Nat.not_lt_zero i)) rfl).2 rfl

/-- Claim C10: when all maxRetries attempts fail at the connection level,
the executor performs exactly maxRetries sleeps of 2, 4, ..., 2*maxRetries
seconds — one after each failed attempt, including a final sleep of
2*maxRetries seconds after the last attempt — before raising the stored
exception of the last attempt. -/
theorem sleep_after_every_failed_attempt (att : Nat → AttemptOutcome) (n : Nat)
    (hn : 0 < n) (h : ∀ i, i < n → connLevel (att i) = true) :
    (make_api_request att n).sleeps = (List.range n).map (fun i => 2 * (i + 1)) ∧
    (make_api_request att n).sleeps.length = n ∧
    (make_api_request att n).sleeps.getLast? = some (2 * n) ∧
    (make_api_request att n).result = ReqOutcome.raised (excOf (att (n - 1))) := by
  have hall := make_api_request_all_retriable att n hn
    (fun i hi => connLevel_retriable (att i) (h i hi))
  have hsleeps : (make_api_request att n).sleeps = (List.range n).map (fun i => 2 * (i + 1)) := by
    rw [hall, backoffs_zero_base]
  refine ⟨hsleeps, ?_, ?_, by rw [hall]⟩
  · rw [hsleeps]
    simp
  · rw [hsleeps]
    cases n with
    | zero => omega
    | succ m =>
      rw [List.getLast?_eq_getElem?]
      simp

theorem sleep_after_every_failed_attempt_witness :
    (make_api_request attAllTimeout 3).sleeps = (List.range 3).map (fun i => 2 * (i + 1)) ∧
    (make_api_request attAllTimeout 3).sleeps.length = 3 ∧
    (make_api_request attAllTimeout 3).sleeps.getLast? = some (2 * 3) ∧
    (make_api_request attAllTimeout 3).result =
      ReqOutcome.raised (excOf (attAllTimeout (3 - 1))) :=
  sleep_after_every_failed_attempt attAllTimeout 3 (by omega) (fun i _ => rfl)

/-- Is the value a string? -/
def jsonIsStr : Json → Bool
  | Json.str _ => true
  | _ => false

/-- The finishReason check falls through to text extraction: the value is
falsy (absent maps to null) or equals "STOP". -/
def frNormal (fr : Json) : Bool :=
  !(pyTruthy fr && !(isStrVal fr "STOP"))

/-- Every value the try block can return is truthy: text is returned only
when truthy, and all fixed messages are non-empty strings. -/
theorem interpCore_ok_truthy (r v : Json) (h : interpCore r = Except.ok v) :
    pyTruthy v = true := by
  unfold interpCore at h
  repeat' split at h
  all_goals try (exact Except.noConfusion h)
  all_goals injection h with h
  all_goals subst h
  all_goals first
    | rfl
    | assumption

/-- Claim C3 counterexample: with candidates[0].content.parts[0].text
holding the number 7 (a truthy non-string), the interpreter returns the
number 7 itself, which is not a string — the claim that it always returns
a non-empty string fails. -/
theorem interp_nonstring_counterexample :
    parse_generation_response (Json.obj [("candidates", Json.arr [Json.obj
      [("content", Json.obj [("parts", Json.arr [Json.obj [("text", Json.num 7)]])])]])]) =
      Json.num 7 ∧
    jsonIsStr (parse_generation_response (Json.obj [("candidates", Json.arr [Json.obj
      [("content", Json.obj [("parts", Json.arr [Json.obj [("text", Json.num 7)]])])]])])) =
      false :=
  ⟨rfl, rfl⟩

/-- Claim C3 (amended): the interpreter is total — every exception is
caught — and always returns a truthy value; whenever the result is a
string it is non-empty. (It returns a non-string only when the extracted
text value is itself a truthy non-string, passed through unchanged.) -/
theorem interp_total_truthy (r : Json) :
    pyTruthy (parse_generation_response r) = true ∧
    (∀ s, parse_generation_response r = Json.str s → s ≠ "") := by
  have hmain : pyTruthy (parse_generation_response r) = true := by
    unfold parse_generation_response
    split
    next v hv => exact interpCore_ok_truthy r v hv
    next e he => rfl
  refine ⟨hmain, ?_⟩
  intro s hs
  rw [hs] at hmain
  simpa [pyTruthy] using hmain

theorem interp_total_truthy_witness :
    pyTruthy (parse_generation_response (Json.obj [])) = true ∧ criticalErrorMsg ≠ "" :=
  ⟨(interp_total_truthy (Json.obj [])).1,
   (interp_total_truthy (Json.obj [])).2 criticalErrorMsg rfl⟩

/-- Claim C4 counterexample: candidates[0] exists, finishReason is absent,
and parts is the empty list — a shape of absence of the text field — yet
the interpreter returns the critical-error fallback (the indexing raises
IndexError inside the try block), not the "vision unclear" fallback. -/
theorem empty_parts_counterexample :
    parse_generation_response (Json.obj [("candidates", Json.arr [Json.obj
      [("content", Json.obj [("parts", Json.arr [])])]])]) = Json.str criticalErrorMsg ∧
    criticalErrorMsg ≠ visionUnclearMsg :=
  ⟨rfl, by decide⟩

/-- Claim C4 (amended): with candidates[0] an object whose finishReason is
absent/falsy or "STOP": (a) when content.parts[0] is an object whose text
is a non-empty string, that text is returned as-is; (b) when parts[0] is
an object whose text is absent or falsy, the fixed "vision unclear"
fallback is returned; (c) when parts is an empty list the extraction
raises internally and the critical-error fallback is returned instead. -/
theorem text_extraction_cases :
    (∀ (fields c ct p : List (String × Json)) (rest ps : List Json) (t : String),
      dictGet fields "candidates" (Json.arr []) = Json.arr (Json.obj c :: rest) →
      frNormal (dictGet c "finishReason" Json.null) = true →
      dictGet c "content" (Json.obj []) = Json.obj ct →
      dictGet ct "parts" (Json.arr []) = Json.arr (Json.obj p :: ps) →
      dictGet p "text" Json.null = Json.str t → t ≠ "" →
      parse_generation_response (Json.obj fields) = Json.str t) ∧
    (∀ (fields c ct p : List (String × Json)) (rest ps : List Json),
      dictGet fields "candidates" (Json.arr []) = Json.arr (Json.obj c :: rest) →
      frNormal (dictGet c "finishReason" Json.null) = true →
      dictGet c "content" (Json.obj []) = Json.obj ct →
      dictGet ct "parts" (Json.arr []) = Json.arr (Json.obj p :: ps) →
      pyTruthy (dictGet p "text" Json.null) = false →
      parse_generation_response (Json.obj fields) = Json.str visionUnclearMsg) ∧
    (∀ (fields c ct : List (String × Json)) (rest : List Json),
      dictGet fields "candidates" (Json.arr []) = Json.arr (Json.obj c :: rest) →
      frNormal (dictGet c "finishReason" Json.null) = true →
      dictGet c "content" (Json.obj []) = Json.obj ct →
      dictGet ct "parts" (Json.arr []) = Json.arr [] →
      parse_generation_response (Json.obj fields) = Json.str criticalErrorMsg) := by
  have hcondOf : ∀ fr : Json, frNormal fr = true →
      (pyTruthy fr && !(isStrVal fr "STOP")) = false := by
    intro fr h
    revert h
    unfold frNormal
    cases (pyTruthy fr && !(isStrVal fr "STOP")) <;> simp
  refine ⟨?_, ?_, ?_⟩
  · intro fields c ct p rest ps t hc hfr hct hp ht hne
    have hcond := hcondOf _ hfr
    unfold parse_generation_response interpCore
    simp only [pyGet, hc, pyIndex0, hct, hp, ht]
    simp only [hcond]
    simp [pyTruthy, hne]
  · intro fields c ct p rest ps hc hfr hct hp ht
    have hcond := hcondOf _ hfr
    unfold parse_generation_response interpCore
    simp only [pyGet, hc, pyIndex0, hct, hp]
    simp only [hcond]
    simp [ht]
  · intro fields c ct rest hc hfr hct hp
    have hcond := hcondOf _ hfr
    unfold parse_generation_response interpCore
    simp only [pyGet, hc, pyIndex0, hct, hp]
    simp only [hcond]
    simp

theorem text_extraction_cases_witness :
    parse_generation_response (Json.obj [("candidates", Json.arr [Json.obj
      [("content", Json.obj [("parts", Json.arr [Json.obj [("text",
        Json.str "hello")]])])]])]) = Json.str "hello" ∧
    parse_generation_response (Json.obj [("candidates", Json.arr [Json.obj
      [("content", Json.obj [("parts", Json.arr [Json.obj
        [("text", Json.str "")]])])]])]) = Json.str visionUnclearMsg ∧
    parse_generation_response (Json.obj [("candidates", Json.arr [Json.obj
      [("finishReason", Json.str "STOP"),
       ("content", Json.obj [("parts", Json.arr [])])]])]) = Json.str criticalErrorMsg :=
  ⟨text_extraction_cases.1 _ _ _ _ _ _ "hello" rfl rfl rfl rfl rfl (by decide),
   text_extraction_cases.2.1 _ _ _ _ _ _ rfl rfl rfl rfl rfl,
   text_extraction_cases.2.2 _ _ _ _ rfl rfl rfl rfl⟩

/-- Claim C6: whenever candidates[0].finishReason equals "MAX_TOKENS", the
interpreter returns exactly the fixed truncation message, regardless of
any partial text in candidates[0].content.parts. -/
theorem max_tokens_truncation (fields c : List (String × Json)) (rest : List Json)
    (hc : dictGet fields "candidates" (Json.arr []) = Json.arr (Json.obj c :: rest))
    (hfr : dictGet c "finishReason" Json.null = Json.str "MAX_TOKENS") :
    parse_generation_response (Json.obj fields) = Json.str maxTokensMsg := by
  unfold parse_generation_response interpCore
  simp only [pyGet, hc, pyIndex0, hfr, pyTruthy, isStrVal]
  rfl

theorem max_tokens_truncation_witness :
    parse_generation_response (Json.obj [("candidates", Json.arr [Json.obj
      [("finishReason", Json.str "MAX_TOKENS"),
       ("content", Json.obj [("parts", Json.arr [Json.obj [("text",
         Json.str "partial vision")]])])]])]) = Json.str maxTokensMsg :=
  max_tokens_truncation _ _ _ rfl rfl

/-- Claim C7: whenever candidates[0].finishReason equals "STOP" and
candidates[0].content.parts[0].text is a present, non-empty string, the
interpreter returns exactly that text, unmodified. -/
theorem stop_returns_text (fields c ct p : List (String × Json)) (rest ps : List Json)
    (t : String)
    (hc : dictGet fields "candidates" (Json.arr []) = Json.arr (Json.obj c :: rest))
    (hfr : dictGet c "finishReason" Json.null = Json.str "STOP")
    (hct : dictGet c "content" (Json.obj []) = Json.obj ct)
    (hp : dictGet ct "parts" (Json.arr []) = Json.arr (Json.obj p :: ps))
    (ht : dictGet p "text" Json.null = Json.str t)
    (hne : t ≠ "") :
    parse_generation_response (Json.obj fields) = Json.str t := by
  unfold parse_generation_response interpCore
  simp only [pyGet, hc, pyIndex0, hfr, hct, hp, ht, pyTruthy, isStrVal]
  simp [hne]

theorem stop_returns_text_witness :
    parse_generation_response (Json.obj [("candidates", Json.arr [Json.obj
      [("finishReason", Json.str "STOP"),
       ("content", Json.obj [("parts", Json.arr [Json.obj [("text", Json.str
         "The ocean is the unconscious; flight is liberation.")]])])]])]) =
      Json.str "The ocean is the unconscious; flight is liberation." :=
  stop_returns_text _ _ _ _ _ _ _ rfl rfl rfl rfl rfl (by decide)

/-- Claim C8: appending an entry and then viewing shows content containing
the sanitized dream, the sanitized interpretation and the 60-character
separator; clearing an existing journal after an affirmative confirmation
leaves the file nonexistent; viewing a nonexistent journal reports the
empty-journal state instead of erroring. -/
theorem journal_round_trip (ts d i : String) (j : Option String) :
    (∃ pre post, view_journal (save_dream ts d i j) =
      ViewOutcome.shown (pre ++ sanitize_text d ++ post)) ∧
    (∃ pre post, view_journal (save_dream ts d i j) =
      ViewOutcome.shown (pre ++ sanitize_text i ++ post)) ∧
    (∃ pre post, view_journal (save_dream ts d i j) =
      ViewOutcome.shown (pre ++ sep60 ++ post)) ∧
    (∀ s : String, (clear_journal "y" (some s)).1 = none) ∧
    view_journal none = ViewOutcome.emptyJournal := by
  refine ⟨?_, ?_, ?_, fun s => rfl, rfl⟩
  · refine ⟨Option.getD j "" ++ ("Time: " ++ ts ++ "\nDream: "),
      "\n\nInterpretation:\n" ++ sanitize_text i ++ "\n" ++ sep60 ++ "\n\n", ?_⟩
    simp [view_journal, save_dream, journalEntry, String.append_assoc]
  · refine ⟨Option.getD j "" ++ ("Time: " ++ ts ++ "\nDream: " ++ sanitize_text d ++
      "\n\nInterpretation:\n"), "\n" ++ sep60 ++ "\n\n", ?_⟩
    simp [view_journal, save_dream, journalEntry, String.append_assoc]
  · refine ⟨Option.getD j "" ++ ("Time: " ++ ts ++ "\nDream: " ++ sanitize_text d ++
      "\n\nInterpretation:\n" ++ sanitize_text i ++ "\n"), "\n\n", ?_⟩
    simp [view_journal, save_dream, journalEntry, String.append_assoc]

theorem journal_round_trip_witness :
    (∃ pre post, view_journal (save_dream "2026-10-12 00:00:00" "I was flying" "Liberation." none) =
      ViewOutcome.shown (pre ++ sanitize_text "I was flying" ++ post)) ∧
    (∃ pre post, view_journal (save_dream "2026-10-12 00:00:00" "I was flying" "Liberation." none) =
      ViewOutcome.shown (pre ++ sanitize_text "Liberation." ++ post)) ∧
    (∃ pre post, view_journal (save_dream "2026-10-12 00:00:00" "I was flying" "Liberation." none) =
      ViewOutcome.shown (pre ++ sep60 ++ post)) ∧
    (∀ s : String, (clear_journal "y" (some s)).1 = none) ∧
    view_journal none = ViewOutcome.emptyJournal :=
  journal_round_trip "2026-10-12 00:00:00" "I was flying" "Liberation." none

/-- Head of dropWhile fails the predicate (when it exists). -/
theorem dropWhile_head_fails (p : Char → Bool) (l : List Char) :
    (l.dropWhile p).head?.all (fun c => !p c) = true := by
  induction l with
  | nil => rfl
  | cons c cs ih =>
    rw [List.dropWhile_cons]
    by_cases h : p c = true
    · rw [if_pos h]
      exact ih
    · rw [if_neg h]
      have hf : p c = false := eq_false_of_ne_true h
      simp [hf]

/-- dropWhile is the identity when the head already fails the predicate. -/
theorem dropWhile_eq_self_of_head (p : Char → Bool) (l : List Char)
    (h : l.head?.all (fun c => !p c) = true) : l.dropWhile p = l := by
  cases l with
  | nil => rfl
  | cons c cs =>
    rw [List.dropWhile_cons]
    have hf : p c = false := by simpa using h
    rw [hf]
    simp

/-- pyRStrip only removes a suffix. -/
theorem pyRStrip_isPrefixSelf (l : List Char) : pyRStrip l <+: l := by
  unfold pyRStrip
  have h : (l.reverse.dropWhile pyIsSpace).reverse <+: l.reverse.reverse :=
    List.reverse_prefix.mpr (List.dropWhile_suffix _)
  simpa using h

/-- A nonempty prefix shares the head. -/
theorem isPrefix_head_eq {pre l : List Char} (h : pre <+: l) (hne : pre ≠ []) :
    l.head? = pre.head? := by
  obtain ⟨t, rfl⟩ := h
  cases pre with
  | nil => exact absurd rfl hne
  | cons c cs => rfl

/-- Characters of the stripped list come from the original list. -/
theorem mem_of_mem_pyStrip {c : Char} {l : List Char} (h : c ∈ pyStrip l) : c ∈ l := by
  unfold pyStrip pyRStrip pyLStrip at h
  have h1 : c ∈ (l.dropWhile pyIsSpace).reverse.dropWhile pyIsSpace := by
    simpa using h
  have h2 : c ∈ (l.dropWhile pyIsSpace).reverse :=
    (List.dropWhile_suffix _).sublist.subset h1
  have h3 : c ∈ l.dropWhile pyIsSpace := by simpa using h2
  exact (List.dropWhile_suffix _).sublist.subset h3

theorem hasNoNul_sanitize (s : String) : hasNoNul (sanitize_text s) = true := by
  unfold hasNoNul sanitize_text
  rw [List.all_eq_true]
  intro c hc
  have hm : c ∈ removeNul s.data := mem_of_mem_pyStrip hc
  unfold removeNul at hm
  simpa using List.of_mem_filter hm

theorem noEdgeSpace_sanitize (s : String) : noEdgeSpace (sanitize_text s) = true := by
  unfold noEdgeSpace sanitize_text
  rw [Bool.and_eq_true]
  constructor
  · show (pyStrip (removeNul s.data)).head?.all (fun c => !pyIsSpace c) = true
    rcases hr : pyStrip (removeNul s.data) with _ | ⟨c, cs⟩
    · rfl
    · have hpre : pyStrip (removeNul s.data) <+: pyLStrip (removeNul s.data) :=
        pyRStrip_isPrefixSelf _
      rw [hr] at hpre
      have hh := isPrefix_head_eq hpre (by simp)
      have hfail := dropWhile_head_fails pyIsSpace (removeNul s.data)
      unfold pyLStrip at hh
      rw [hh] at hfail
      exact hfail
  · show (pyStrip (removeNul s.data)).getLast?.all (fun c => !pyIsSpace c) = true
    unfold pyStrip pyRStrip
    rw [List.getLast?_reverse]
    exact dropWhile_head_fails pyIsSpace (pyLStrip (removeNul s.data)).reverse

/-- Sanitizing an already-clean string (no NUL bytes, no whitespace at
either end) is the identity. -/
theorem sanitize_clean (s : String) (h1 : hasNoNul s = true) (h2 : noEdgeSpace s = true) :
    sanitize_text s = s := by
  unfold sanitize_text
  obtain ⟨l⟩ := s
  have hfil : removeNul l = l := by
    unfold removeNul
    rw [List.filter_eq_self]
    intro a ha
    unfold hasNoNul at h1
    rw [List.all_eq_true] at h1
    exact h1 a ha
  rw [hfil]
  unfold noEdgeSpace at h2
  rw [Bool.and_eq_true] at h2
  unfold pyStrip
  have hl : pyLStrip l = l := dropWhile_eq_self_of_head _ _ h2.1
  rw [hl]
  unfold pyRStrip
  have hrev : l.reverse.head?.all (fun c => !pyIsSpace c) = true := by
    rw [List.head?_reverse]
    exact h2.2
  rw [dropWhile_eq_self_of_head _ _ hrev, List.reverse_reverse]

/-- Claim C9: sanitize_text is the identity on already-sanitized strings
(no NUL bytes, no leading or trailing whitespace), and is idempotent on
every string. -/
theorem sanitize_idempotent :
    (∀ s : String, hasNoNul s = true → noEdgeSpace s = true → sanitize_text s = s) ∧
    (∀ s : String, sanitize_text (sanitize_text s) = sanitize_text s) :=
  ⟨fun s h1 h2 => sanitize_clean s h1 h2,
   fun s => sanitize_clean (sanitize_text s) (hasNoNul_sanitize s) (noEdgeSpace_sanitize s)⟩

theorem sanitize_idempotent_witness :
    sanitize_text "abc" = "abc" ∧
    sanitize_text (sanitize_text "  a\x00b  ") = sanitize_text "  a\x00b  " :=
  ⟨sanitize_idempotent.1 "abc" (by decide) (by decide),
   sanitize_idempotent.2 "  a\x00b  "⟩

end DreamOracle
